import Mathlib

/-!
Verification of the AS3935 lightning-detector application (lightning.py).

The definitions below are a shallow embedding of the program's data model and
operations: alert-zone state machine (check_alert_conditions, the all-clear
timer callback), the sensor driver's register operations (set_noise_floor,
get_lightning_energy, get_interrupt_reason), the interrupt dispatcher, the
lightning-event handler, the Slack queue backpressure logic, and the
noise-floor revert callback.  Machine bytes are Nat with explicit masks;
Python ints that may be negative (config values, timestamps) are Int.
-/

namespace Lightning

/-- AlertLevel enum from the source (warning / critical / all_clear). -/
inductive AlertLevel where
  | warning
  | critical
  | allClear
deriving DecidableEq, Repr

/-- Interrupt reason bit mask INT_NH = 0x01 (noise level too high). -/
def INT_NH : Nat := 0x01

/-- Interrupt reason bit mask INT_D = 0x04 (disturber detected). -/
def INT_D : Nat := 0x04

/-- Interrupt reason bit mask INT_L = 0x08 (lightning detected). -/
def INT_L : Nat := 0x08

/-- The route taken by the dispatcher in handle_sensor_interrupt. -/
inductive InterruptAction where
  | lightning
  | disturber
  | noiseHigh
  | unknown
deriving DecidableEq, Repr

/-- get_interrupt_reason: the low 4 bits of register 0x03. -/
def get_interrupt_reason (reg03 : Nat) : Nat := reg03 &&& 0x0F

/-- The dispatch chain of handle_sensor_interrupt: exact equality tests against
INT_L, INT_D, INT_NH in that order; anything else is only logged (unknown). -/
def dispatch (interrupt_reason : Nat) : InterruptAction :=
  if interrupt_reason = INT_L then InterruptAction.lightning
  else if interrupt_reason = INT_D then InterruptAction.disturber
  else if interrupt_reason = INT_NH then InterruptAction.noiseHigh
  else InterruptAction.unknown

/-- get_lightning_distance: register 0x07 masked to the low 6 bits. -/
def get_lightning_distance (reg07 : Nat) : Nat := reg07 &&& 0x3F

/-- get_lightning_energy: (mmsb and 0x1F) shifted 16, or msb shifted 8, or lsb,
where lsb, msb, mmsb are registers 0x04, 0x05, 0x06. -/
def get_lightning_energy (reg04 reg05 reg06 : Nat) : Nat :=
  ((reg06 &&& 0x1F) <<< 16) ||| (reg05 <<< 8) ||| reg04

/-- set_noise_floor acting on the byte held in register 0x01: the guard
rejects levels outside 0..7 with no write (none); otherwise the byte written
is (level shifted left 4) or-ed with the preserved watchdog nibble. -/
def set_noise_floor (level : Int) (reg01 : Nat) : Option Nat :=
  if 0 ≤ level ∧ level ≤ 7 then
    some ((level.toNat <<< 4) ||| (reg01 &&& 0x0F))
  else
    none

/-- The register-0x01 byte after a set_noise_floor call: unchanged when the
level is rejected. -/
def applyNoiseFloorWrite (level : Int) (reg01 : Nat) : Nat :=
  match set_noise_floor level reg01 with
  | some v => v
  | none => reg01

/-- The ALERT_STATE dictionary: per-zone active flags, last-strike
timestamps (minutes, Int), and whether a per-zone all-clear timer is
outstanding. -/
structure AlertState where
  warning_active : Bool
  critical_active : Bool
  last_warning_strike : Option Int
  last_critical_strike : Option Int
  warning_timer : Bool
  critical_timer : Bool
deriving DecidableEq, Repr

/-- The configuration values read by the alert logic (get_config_int, so
arbitrary Int). -/
structure AlertConfig where
  energy_threshold : Int
  critical_distance : Int
  warning_distance : Int
  all_clear_timer : Int
deriving DecidableEq, Repr

/-- The dictionary returned by check_alert_conditions. -/
structure AlertDecision where
  send_alert : Bool
  level : Option AlertLevel
deriving DecidableEq, Repr

/-- check_alert_conditions: energy gate first, then the critical branch
(distance at most critical_distance), else the warning branch (distance at
most warning_distance and critical inactive).  schedule_all_clear_message is
modelled by setting the zone's timer flag. -/
def check_alert_conditions (cfg : AlertConfig) (now : Int) (distance energy : Nat)
    (s : AlertState) : AlertState × AlertDecision :=
  if (energy : Int) < cfg.energy_threshold then
    (s, ⟨false, none⟩)
  else if (distance : Int) ≤ cfg.critical_distance then
    let s1 := { s with last_critical_strike := some now }
    if s1.critical_active = false then
      ({ s1 with critical_active := true, warning_active := false, critical_timer := true },
       ⟨true, some AlertLevel.critical⟩)
    else
      ({ s1 with critical_timer := true }, ⟨false, none⟩)
  else if (distance : Int) ≤ cfg.warning_distance ∧ s.critical_active = false then
    let s1 := { s with last_warning_strike := some now }
    if s1.warning_active = false then
      ({ s1 with warning_active := true, warning_timer := true },
       ⟨true, some AlertLevel.warning⟩)
    else
      ({ s1 with warning_timer := true }, ⟨false, none⟩)
  else
    (s, ⟨false, none⟩)

/-- The ALERT_STATE as the program starts: both zones inactive, no strikes
recorded, no timers. -/
def startAlertState : AlertState :=
  { warning_active := false, critical_active := false,
    last_warning_strike := none, last_critical_strike := none,
    warning_timer := false, critical_timer := false }

/-- One decoded strike fed to check_alert_conditions. -/
structure StrikeInput where
  now : Int
  distance : Nat
  energy : Nat
deriving DecidableEq, Repr

/-- The alert state after a sequence of strikes has been processed by
check_alert_conditions, starting from the program's start state. -/
def runAlertEvents (cfg : AlertConfig) (events : List StrikeInput) : AlertState :=
  events.foldl
    (fun s e => (check_alert_conditions cfg e.now e.distance e.energy s).1)
    startAlertState

/-- The dominance invariant: warning_active and critical_active never both
true. -/
def alertInv (s : AlertState) : Prop :=
  s.warning_active = false ∨ s.critical_active = false

instance (s : AlertState) : Decidable (alertInv s) := by
  unfold alertInv
  infer_instance

/-- One entry of the events ring buffer (the dict built by
handle_lightning_event). -/
structure LightningEvent where
  timestamp : Int
  distance : Nat
  energy : Nat
  alert_sent : Bool
  alert_level : Option AlertLevel
deriving DecidableEq, Repr

/-- Append to the deque of maxlen 100: the oldest entry is evicted when the
buffer is full. -/
def appendEvent (events : List LightningEvent) (e : LightningEvent) :
    List LightningEvent :=
  if events.length < 100 then events ++ [e] else events.tail ++ [e]

/-- The observable effect of one handle_lightning_event call. -/
structure LightningOutcome where
  alert_evaluated : Bool
  loggedWarning : Bool
  alertState : AlertState
  events : List LightningEvent
  queued : Option AlertLevel
deriving DecidableEq, Repr

/-- handle_lightning_event: the 0x3F (out of range) and 0 (invalid) distance
guards return after only a log warning; otherwise check_alert_conditions
runs, the event is appended to the ring buffer, and a notification is queued
when an alert fired. -/
def handle_lightning_event (cfg : AlertConfig) (now : Int) (distance energy : Nat)
    (s : AlertState) (events : List LightningEvent) : LightningOutcome :=
  if distance = 0x3F then
    { alert_evaluated := false, loggedWarning := true, alertState := s,
      events := events, queued := none }
  else if distance = 0 then
    { alert_evaluated := false, loggedWarning := true, alertState := s,
      events := events, queued := none }
  else
    let r := check_alert_conditions cfg now distance energy s
    let ev : LightningEvent :=
      { timestamp := now, distance := distance, energy := energy,
        alert_sent := r.2.send_alert, alert_level := r.2.level }
    let queued : Option AlertLevel :=
      if r.2.send_alert then
        match r.2.level with
        | some AlertLevel.critical => some AlertLevel.critical
        | some AlertLevel.warning => some AlertLevel.warning
        | _ => none
      else none
    { alert_evaluated := true, loggedWarning := false, alertState := r.1,
      events := appendEvent events ev, queued := queued }

/-- The all-clear timer callback send_all_clear, scheduled against one zone:
re-checks the stop signal, that the zone is still active, that its timer and
last-strike record exist, and that at least delay_minutes have elapsed since
the zone's last strike, before emitting the notification (the returned Bool)
and deactivating the zone. -/
def send_all_clear (alert_level : AlertLevel) (delay_minutes : Int) (now : Int)
    (stopSet : Bool) (s : AlertState) : AlertState × Bool :=
  if stopSet then (s, false)
  else if alert_level = AlertLevel.warning ∧ s.warning_active = true then
    match s.last_warning_strike with
    | some t =>
      if s.warning_timer = true ∧ delay_minutes ≤ now - t then
        ({ s with warning_active := false, warning_timer := false }, true)
      else (s, false)
    | none => (s, false)
  else if alert_level = AlertLevel.critical ∧ s.critical_active = true then
    match s.last_critical_strike with
    | some t =>
      if s.critical_timer = true ∧ delay_minutes ≤ now - t then
        ({ s with critical_active := false, critical_timer := false }, true)
      else (s, false)
    | none => (s, false)
  else (s, false)

/-- Whether a zone's active flag is set (warning or critical; the all-clear
level has no zone). -/
def zoneActive (l : AlertLevel) (s : AlertState) : Bool :=
  match l with
  | AlertLevel.warning => s.warning_active
  | AlertLevel.critical => s.critical_active
  | AlertLevel.allClear => false

/-- A zone's recorded last-strike timestamp. -/
def zoneLastStrike (l : AlertLevel) (s : AlertState) : Option Int :=
  match l with
  | AlertLevel.warning => s.last_warning_strike
  | AlertLevel.critical => s.last_critical_strike
  | AlertLevel.allClear => none

/-- One queued Slack message: only its alert_level drives admission control;
the tag distinguishes messages. -/
structure SlackMsg where
  tag : Nat
  alert_level : Option AlertLevel
deriving DecidableEq, Repr

/-- Membership test alert_level in [CRITICAL, WARNING] from
send_slack_notification. -/
def isHighSeverity (l : Option AlertLevel) : Bool :=
  l = some AlertLevel.critical || l = some AlertLevel.warning

/-- The drain-and-put-back loop of send_slack_notification on a full queue:
removes the first (oldest) message whose alert_level is not CRITICAL or
WARNING, keeping every other message in order; the Bool reports whether a
message was removed. -/
def evictOldestNonHigh : List SlackMsg → List SlackMsg × Bool
  | [] => ([], false)
  | m :: rest =>
    if !(isHighSeverity m.alert_level) then (rest, true)
    else
      let r := evictOldestNonHigh rest
      (m :: r.1, r.2)

/-- How send_slack_notification disposed of the message. -/
inductive EnqueueResult where
  | notEnabled
  | queued
  | queuedAfterEvict
  | droppedLow
  | droppedHighFull
deriving DecidableEq, Repr

/-- Queue(maxsize=100). -/
def SLACK_QUEUE_CAPACITY : Nat := 100

/-- send_slack_notification: put_nowait succeeds below capacity; on a full
queue a WARNING/CRITICAL message evicts the oldest non-high message and is
admitted, or is dropped with an error log when no evictable message exists;
a full queue drops any other message with a warning log. -/
def send_slack_notification (enabled : Bool) (q : List SlackMsg) (m : SlackMsg) :
    List SlackMsg × EnqueueResult :=
  if !enabled then (q, EnqueueResult.notEnabled)
  else if q.length < SLACK_QUEUE_CAPACITY then (q ++ [m], EnqueueResult.queued)
  else if isHighSeverity m.alert_level then
    let r := evictOldestNonHigh q
    if r.2 then (r.1 ++ [m], EnqueueResult.queuedAfterEvict)
    else (q, EnqueueResult.droppedHighFull)
  else (q, EnqueueResult.droppedLow)

/-- The noise_mode status value: Normal / High / Critical. -/
inductive NoiseMode where
  | normal
  | high
  | critical
deriving DecidableEq, Repr

/-- The state touched by revert_noise_floor: the noise mode, the sensor's
register 0x01 byte, the disturber-event window, and the outstanding revert
timer reference. -/
structure NoiseState where
  noise_mode : NoiseMode
  reg01 : Nat
  noise_events : List Int
  revert_timer : Bool
deriving DecidableEq, Repr

/-- revert_noise_floor: only when the current noise mode still equals the
mode the timer was scheduled against does it restore the driver's original
baseline noise floor, clear the disturber window, set the mode to Normal and
drop the timer reference; otherwise nothing changes. -/
def revert_noise_floor (original_noise_floor : Int) (level_to_revert : NoiseMode)
    (s : NoiseState) : NoiseState :=
  if s.noise_mode = level_to_revert then
    { noise_mode := NoiseMode.normal,
      reg01 := applyNoiseFloorWrite original_noise_floor s.reg01,
      noise_events := [],
      revert_timer := false }
  else s

/-- The SPI bus as seen by one register call: for each transfer attempt, the
outcome (error models IOError; reads return the response byte). -/
structure SpiHandle where
  readXfer : Nat → List (Except Unit Nat)
  writeXfer : Nat → Nat → List (Except Unit Unit)

/-- The retry loop of _read_register over the listed attempt outcomes: a
success returns the byte, the final failure is raised, and an exhausted loop
returns 0. -/
def readAttemptLoop : List (Except Unit Nat) → Except Unit Nat × Nat
  | [] => (Except.ok 0, 0)
  | [a] => (a, 1)
  | a :: rest =>
    match a with
    | Except.ok v => (Except.ok v, 1)
    | Except.error _ =>
      let r := readAttemptLoop rest
      (r.1, r.2 + 1)

/-- The retry loop of _write_register: a success returns, the final failure
is raised, and an exhausted loop falls through. -/
def writeAttemptLoop : List (Except Unit Unit) → Except Unit Unit × Nat
  | [] => (Except.ok (), 0)
  | [a] => (a, 1)
  | a :: rest =>
    match a with
    | Except.ok _ => (Except.ok (), 1)
    | Except.error _ =>
      let r := writeAttemptLoop rest
      (r.1, r.2 + 1)

/-- _read_register: with the SPI handle released (none) it returns 0 with no
bus transaction; otherwise it transfers the address byte with bit 6 set,
with retries.  The Nat counts bus transactions performed. -/
def readRegister (spi : Option SpiHandle) (reg : Nat) : Except Unit Nat × Nat :=
  match spi with
  | none => (Except.ok 0, 0)
  | some bus => readAttemptLoop (bus.readXfer (reg ||| 0x40))

/-- _write_register: with the SPI handle released (none) it returns with no
bus transaction; otherwise it transfers [reg, value] with retries. -/
def writeRegister (spi : Option SpiHandle) (reg value : Nat) :
    Except Unit Unit × Nat :=
  match spi with
  | none => (Except.ok (), 0)
  | some bus => writeAttemptLoop (bus.writeXfer reg value)

/-- Concrete alert configuration used by witnesses: the end-to-end scenario
values energy_threshold=100000, critical_distance=10, warning_distance=30,
all_clear_timer=15. -/
def cfgW : AlertConfig :=
  { energy_threshold := 100000, critical_distance := 10,
    warning_distance := 30, all_clear_timer := 15 }

/-- A state with the WARNING zone active, used by witnesses. -/
def warnActiveState : AlertState :=
  { warning_active := true, critical_active := false,
    last_warning_strike := some 0, last_critical_strike := none,
    warning_timer := true, critical_timer := false }

/-- A state with the CRITICAL zone active, used by witnesses. -/
def critActiveState : AlertState :=
  { warning_active := false, critical_active := true,
    last_warning_strike := none, last_critical_strike := some 0,
    warning_timer := false, critical_timer := true }

/-- A queued INFO message (no alert level), used by witnesses. -/
def infoMsg : SlackMsg := { tag := 0, alert_level := none }

/-- A queued WARNING message, used by witnesses. -/
def warnMsg : SlackMsg := { tag := 1, alert_level := some AlertLevel.warning }

/-- A queued CRITICAL message, used by witnesses. -/
def critMsg : SlackMsg := { tag := 2, alert_level := some AlertLevel.critical }

/-- A Slack queue holding 100 INFO messages (at capacity, all evictable). -/
def fullInfoQueue : List SlackMsg := List.replicate 100 infoMsg

/-- A Slack queue holding 100 CRITICAL messages (at capacity, none evictable). -/
def fullCritQueue : List SlackMsg := List.replicate 100 critMsg

/-- Shifting then or-ing is addition when the low part fits under the shift. -/
theorem shiftLeft_or_eq_add (a b n : Nat) (hb : b < 2 ^ n) :
    (a <<< n) ||| b = 2 ^ n * a + b := by
  rw [Nat.shiftLeft_eq, Nat.mul_comm]
  exact (Nat.mul_add_lt_is_or hb a).symm

/-- The byte written by an accepted set_noise_floor call, in arithmetic form. -/
theorem set_noise_floor_eq (level : Int) (reg01 : Nat)
    (h0 : 0 ≤ level) (h7 : level ≤ 7) :
    set_noise_floor level reg01 = some (16 * level.toNat + reg01 % 16) := by
  unfold set_noise_floor
  rw [if_pos ⟨h0, h7⟩]
  have hm : reg01 &&& 0x0F = reg01 % 16 := by
    have h := Nat.and_pow_two_sub_one_eq_mod reg01 4
    norm_num at h
    exact h
  have hs := shiftLeft_or_eq_add level.toNat (reg01 % 16) 4 (by omega)
  norm_num at hs
  rw [hm, hs]

/-- Claim C2 counterexample: with register 0x01 previously holding 0x80
(bit 7 set), set_noise_floor 0 writes 0x00, so a bit other than NF_LEV and
WDTH does change — bit 7 is cleared rather than preserved. -/
theorem set_noise_floor_bit7_cex :
    set_noise_floor 0 0x80 = some 0x00 ∧
    Nat.testBit 0x80 7 = true ∧ Nat.testBit 0x00 7 = false := by
  decide

/-- Claim C2 (amended): for 0 ≤ L ≤ 7, set_noise_floor writes register 0x01
with NF_LEV (bits 6:4) equal to L, the WDTH nibble (bits 3:0) preserved, and
bit 7 written as 0; for L outside 0..7 no write is performed. -/
theorem set_noise_floor_spec (level : Int) (reg01 : Nat) :
    (0 ≤ level ∧ level ≤ 7 →
      ∃ v, set_noise_floor level reg01 = some v ∧
        v / 16 % 8 = level.toNat ∧
        v % 16 = reg01 % 16 ∧
        Nat.testBit v 7 = false) ∧
    (¬(0 ≤ level ∧ level ≤ 7) → set_noise_floor level reg01 = none) := by
  constructor
  · rintro ⟨h0, h7⟩
    have ht : level.toNat ≤ 7 := by omega
    refine ⟨16 * level.toNat + reg01 % 16,
      set_noise_floor_eq level reg01 h0 h7, by omega, by omega, ?_⟩
    apply Nat.testBit_lt_two_pow
    have hr : reg01 % 16 < 16 := by omega
    norm_num
    omega
  · intro h
    unfold set_noise_floor
    rw [if_neg h]

/-- Claim C2 witness: set_noise_floor 3 on a register holding 0x47 yields a
byte with NF_LEV = 3 and WDTH = 7; level 8 is rejected with no write. -/
theorem set_noise_floor_spec_witness :
    (∃ v, set_noise_floor 3 0x47 = some v ∧
      v / 16 % 8 = (3 : Int).toNat ∧
      v % 16 = 0x47 % 16 ∧
      Nat.testBit v 7 = false) ∧
    set_noise_floor 8 0x47 = none :=
  ⟨(set_noise_floor_spec 3 0x47).1 (by decide),
   (set_noise_floor_spec 8 0x47).2 (by decide)⟩

/-- Claim C3: if registers 0x04, 0x05, 0x06 hold the low byte, middle byte
and top bits of a 20-bit value E, get_lightning_energy returns exactly E. -/
theorem energy_roundtrip (E : Nat) (hE : E < 2 ^ 20) :
    get_lightning_energy (E % 256) (E / 256 % 256) (E / 65536) = E := by
  unfold get_lightning_energy
  have hmask : E / 65536 &&& 0x1F = E / 65536 := by
    have h := Nat.and_pow_two_sub_one_of_lt_two_pow
      (show E / 65536 < 2 ^ 5 by omega)
    norm_num at h
    exact h
  rw [hmask]
  have h1 : (E / 256 % 256) <<< 8 < 2 ^ 16 := by
    rw [Nat.shiftLeft_eq]
    have hm : E / 256 % 256 < 256 := Nat.mod_lt _ (by norm_num)
    norm_num
    omega
  rw [shiftLeft_or_eq_add (E / 65536) ((E / 256 % 256) <<< 8) 16 h1,
    Nat.shiftLeft_eq]
  have h2 : 2 ^ 16 * (E / 65536) + E / 256 % 256 * 2 ^ 8 =
      2 ^ 8 * (2 ^ 8 * (E / 65536) + E / 256 % 256) := by ring
  rw [h2, ← Nat.mul_add_lt_is_or (show E % 256 < 2 ^ 8 by omega)
    (2 ^ 8 * (E / 65536) + E / 256 % 256)]
  omega

/-- Claim C3 witness: the round trip at the 20-bit value 0xABCDE. -/
theorem energy_roundtrip_witness :
    get_lightning_energy (0xABCDE % 256) (0xABCDE / 256 % 256)
      (0xABCDE / 65536) = 0xABCDE :=
  energy_roundtrip 0xABCDE (by norm_num)

/-- Claim C4: the dispatcher routes the masked interrupt value 0x08 to the
lightning handler, 0x04 to the disturber path, 0x01 to the noise-high path,
exactly (by equality, not bit test), and every other value — including
combined values such as 0x09 — is unknown and only logged. -/
theorem interrupt_classification (reg03 : Nat) :
    (get_interrupt_reason reg03 = INT_L ↔
      dispatch (get_interrupt_reason reg03) = InterruptAction.lightning) ∧
    (get_interrupt_reason reg03 = INT_D ↔
      dispatch (get_interrupt_reason reg03) = InterruptAction.disturber) ∧
    (get_interrupt_reason reg03 = INT_NH ↔
      dispatch (get_interrupt_reason reg03) = InterruptAction.noiseHigh) ∧
    (get_interrupt_reason reg03 ≠ INT_L → get_interrupt_reason reg03 ≠ INT_D →
      get_interrupt_reason reg03 ≠ INT_NH →
      dispatch (get_interrupt_reason reg03) = InterruptAction.unknown) ∧
    dispatch (get_interrupt_reason 0x09) = InterruptAction.unknown := by
  refine ⟨?_, ?_, ?_, ?_, by decide⟩ <;>
    unfold dispatch INT_L INT_D INT_NH <;>
    split_ifs <;> simp_all

/-- Claim C4 witness: register value 0x49 masks to 0x09, which has the
lightning bit set together with the noise bit and is routed to unknown. -/
theorem interrupt_classification_witness :
    dispatch (get_interrupt_reason 0x49) = InterruptAction.unknown :=
  (interrupt_classification 0x49).2.2.2.1 (by decide) (by decide) (by decide)

/-- Claim C9: with the SPI handle released, _read_register returns 0 and
_write_register returns, neither raising and neither performing any bus
transaction. -/
theorem released_spi_register_ops (reg value : Nat) :
    readRegister none reg = (Except.ok 0, 0) ∧
    writeRegister none reg value = (Except.ok (), 0) :=
  ⟨rfl, rfl⟩

/-- Claim C5 counterexample: a lightning interrupt decoding to distance 0x3F
leaves the event ring buffer untouched — no LightningEvent with the
OUT_OF_RANGE sentinel is recorded — and alert evaluation is skipped. -/
theorem out_of_range_not_in_ring_buffer :
    (handle_lightning_event cfgW 0 0x3F 500000 startAlertState []).events = [] ∧
    (handle_lightning_event cfgW 0 0x3F 500000 startAlertState []).alert_evaluated
      = false := by
  decide

/-- Claim C5 (amended): for a lightning interrupt whose decoded distance is
0x3F, handle_lightning_event only logs a warning: check_alert_conditions is
not invoked, no notification is queued, the alert state is untouched, and no
LightningEvent is appended to the ring buffer. -/
theorem out_of_range_only_logged (cfg : AlertConfig) (now : Int) (energy : Nat)
    (s : AlertState) (events : List LightningEvent) :
    handle_lightning_event cfg now 0x3F energy s events =
      { alert_evaluated := false, loggedWarning := true, alertState := s,
        events := events, queued := none } :=
  rfl

/-- Claim C10: for a lightning interrupt whose decoded distance is 0,
handle_lightning_event logs a warning and discards the event: no
LightningEvent is appended, no alert evaluation runs, and no notification is
queued. -/
theorem zero_distance_discarded (cfg : AlertConfig) (now : Int) (energy : Nat)
    (s : AlertState) (events : List LightningEvent) :
    handle_lightning_event cfg now 0 energy s events =
      { alert_evaluated := false, loggedWarning := true, alertState := s,
        events := events, queued := none } :=
  rfl

/-- One check_alert_conditions step preserves the dominance invariant. -/
theorem check_alert_preserves_inv (cfg : AlertConfig) (now : Int)
    (distance energy : Nat) (s : AlertState) (h : alertInv s) :
    alertInv (check_alert_conditions cfg now distance energy s).1 := by
  unfold check_alert_conditions alertInv at *
  split_ifs <;> simp_all <;> (try (split <;> simp_all))

/-- Folding check_alert_conditions over any strike list preserves the
dominance invariant. -/
theorem foldl_check_alert_inv (cfg : AlertConfig) (events : List StrikeInput)
    (s : AlertState) (h : alertInv s) :
    alertInv (events.foldl
      (fun s e => (check_alert_conditions cfg e.now e.distance e.energy s).1) s) := by
  induction events generalizing s with
  | nil => exact h
  | cons e rest ih =>
    exact ih _ (check_alert_preserves_inv cfg e.now e.distance e.energy s h)

/-- Claim C1: over every strike sequence the warning and critical flags are
never simultaneously active; a qualifying strike inside the critical distance
while WARNING is active activates CRITICAL and forces WARNING off; and a
later warning-range strike while CRITICAL is active leaves WARNING off and
raises no alert. -/
theorem alert_dominance (cfg : AlertConfig) (events : List StrikeInput)
    (now : Int) (distance energy : Nat) (s : AlertState) (hInv : alertInv s) :
    alertInv (runAlertEvents cfg events) ∧
    alertInv (check_alert_conditions cfg now distance energy s).1 ∧
    (s.warning_active = true → cfg.energy_threshold ≤ (energy : Int) →
      (distance : Int) ≤ cfg.critical_distance →
      (check_alert_conditions cfg now distance energy s).1.critical_active = true ∧
      (check_alert_conditions cfg now distance energy s).1.warning_active = false) ∧
    (s.critical_active = true → cfg.energy_threshold ≤ (energy : Int) →
      cfg.critical_distance < (distance : Int) →
      (distance : Int) ≤ cfg.warning_distance →
      (check_alert_conditions cfg now distance energy s).1.warning_active = false ∧
      (check_alert_conditions cfg now distance energy s).2.send_alert = false) := by
  refine ⟨foldl_check_alert_inv cfg events startAlertState (Or.inl rfl),
    check_alert_preserves_inv cfg now distance energy s hInv, ?_, ?_⟩
  · intro hw he hd
    have hc : s.critical_active = false := by
      cases hInv with
      | inl h => rw [hw] at h; exact absurd h (by simp)
      | inr h => exact h
    unfold check_alert_conditions
    rw [if_neg (by omega), if_pos hd]
    simp [hc]
  · intro hc he hd1 hd2
    have hw : s.warning_active = false := by
      cases hInv with
      | inl h => exact h
      | inr h => rw [hc] at h; exact absurd h (by simp)
    unfold check_alert_conditions
    rw [if_neg (by omega), if_neg (by omega)]
    simp [hc, hw]

/-- Claim C1 witness: with the end-to-end configuration and WARNING active, a
strike at 8 km with energy 250000 activates CRITICAL and clears WARNING. -/
theorem alert_dominance_witness :
    (check_alert_conditions cfgW 5 8 250000 warnActiveState).1.critical_active
      = true ∧
    (check_alert_conditions cfgW 5 8 250000 warnActiveState).1.warning_active
      = false :=
  (alert_dominance cfgW [] 5 8 250000 warnActiveState (by decide)).2.2.1
    (by decide) (by decide) (by decide)

/-- Dropping the oldest message: the eviction scan removes the head when the
head is not WARNING/CRITICAL. -/
theorem evictOldestNonHigh_head_low (m : SlackMsg) (rest : List SlackMsg)
    (h : isHighSeverity m.alert_level = false) :
    evictOldestNonHigh (m :: rest) = (rest, true) := by
  simp [evictOldestNonHigh, h]

/-- The eviction scan removes nothing from a queue of WARNING/CRITICAL
messages only. -/
theorem evictOldestNonHigh_all_high (q : List SlackMsg)
    (h : ∀ x ∈ q, isHighSeverity x.alert_level = true) :
    evictOldestNonHigh q = (q, false) := by
  induction q with
  | nil => rfl
  | cons m rest ih =>
    have hm := h m (by simp)
    have hr := ih (fun x hx => h x (by simp [hx]))
    simp [evictOldestNonHigh, hm, hr]

/-- Claim C6: on a queue at capacity 100 holding only non-WARNING/CRITICAL
messages, a further low-severity message is dropped while a WARNING/CRITICAL
message evicts exactly the oldest queued message and is admitted; on a full
queue with no evictable message, a WARNING/CRITICAL message is dropped and
logged as a failure. -/
theorem slack_backpressure (q : List SlackMsg) (m : SlackMsg)
    (hfull : q.length = SLACK_QUEUE_CAPACITY) :
    ((∀ x ∈ q, isHighSeverity x.alert_level = false) →
      (isHighSeverity m.alert_level = false →
        send_slack_notification true q m = (q, EnqueueResult.droppedLow)) ∧
      (isHighSeverity m.alert_level = true →
        send_slack_notification true q m =
          (q.tail ++ [m], EnqueueResult.queuedAfterEvict))) ∧
    ((∀ x ∈ q, isHighSeverity x.alert_level = true) →
      isHighSeverity m.alert_level = true →
      send_slack_notification true q m = (q, EnqueueResult.droppedHighFull)) := by
  have hnotlt : ¬ q.length < SLACK_QUEUE_CAPACITY := by omega
  constructor
  · intro hlow
    constructor
    · intro hm
      simp [send_slack_notification, hnotlt, hm]
    · intro hm
      obtain ⟨x, rest, rfl⟩ : ∃ x rest, q = x :: rest := by
        cases q with
        | nil => simp [SLACK_QUEUE_CAPACITY] at hfull
        | cons a b => exact ⟨a, b, rfl⟩
      have hx : isHighSeverity x.alert_level = false := hlow x (by simp)
      simp only [send_slack_notification, Bool.not_true, Bool.false_eq_true,
        if_false, if_neg hnotlt, if_pos hm,
        evictOldestNonHigh_head_low x rest hx, List.tail_cons]
      simp
  · intro hhigh hm
    simp [send_slack_notification, hnotlt, hm,
      evictOldestNonHigh_all_high q hhigh]

/-- Claim C6 witness: a WARNING message offered to a full all-INFO queue
evicts the oldest INFO message and is admitted. -/
theorem slack_backpressure_witness :
    send_slack_notification true fullInfoQueue warnMsg =
      (fullInfoQueue.tail ++ [warnMsg], EnqueueResult.queuedAfterEvict) :=
  ((slack_backpressure fullInfoQueue warnMsg (by decide)).1
    (by decide)).2 (by decide)

/-- Claim C7: the revert callback scheduled against mode M mutates nothing
when the current noise mode differs from M; when the mode still equals M it
restores the driver's original baseline noise floor into NF_LEV (preserving
WDTH), clears the disturber window, sets the mode to Normal, and drops the
timer reference. -/
theorem revert_stale_timer_guard (orig : Int) (M : NoiseMode) (s : NoiseState)
    (h0 : 0 ≤ orig) (h7 : orig ≤ 7) :
    (s.noise_mode ≠ M → revert_noise_floor orig M s = s) ∧
    (s.noise_mode = M →
      (revert_noise_floor orig M s).noise_mode = NoiseMode.normal ∧
      (revert_noise_floor orig M s).noise_events = [] ∧
      (revert_noise_floor orig M s).revert_timer = false ∧
      (revert_noise_floor orig M s).reg01 / 16 % 8 = orig.toNat ∧
      (revert_noise_floor orig M s).reg01 % 16 = s.reg01 % 16) := by
  constructor
  · intro h
    unfold revert_noise_floor
    rw [if_neg h]
  · intro h
    have heq : applyNoiseFloorWrite orig s.reg01 =
        16 * orig.toNat + s.reg01 % 16 := by
      unfold applyNoiseFloorWrite
      rw [set_noise_floor_eq orig s.reg01 h0 h7]
    have ht : orig.toNat ≤ 7 := by omega
    unfold revert_noise_floor
    rw [if_pos h]
    refine ⟨rfl, rfl, rfl, ?_, ?_⟩ <;> simp [heq] <;> omega

/-- Claim C7 witness: a revert timer scheduled against High firing after the
mode advanced to Critical changes nothing; one firing while the mode is still
High restores baseline 2, clears the window and returns to Normal. -/
theorem revert_stale_timer_guard_witness :
    revert_noise_floor 2 NoiseMode.high
        { noise_mode := NoiseMode.critical, reg01 := 0x72,
          noise_events := [0], revert_timer := true } =
      { noise_mode := NoiseMode.critical, reg01 := 0x72,
        noise_events := [0], revert_timer := true } ∧
    (revert_noise_floor 2 NoiseMode.high
        { noise_mode := NoiseMode.high, reg01 := 0x52,
          noise_events := [0], revert_timer := true }).noise_mode
      = NoiseMode.normal :=
  ⟨(revert_stale_timer_guard 2 NoiseMode.high
      { noise_mode := NoiseMode.critical, reg01 := 0x72,
        noise_events := [0], revert_timer := true }
      (by decide) (by decide)).1 (by decide),
   ((revert_stale_timer_guard 2 NoiseMode.high
      { noise_mode := NoiseMode.high, reg01 := 0x52,
        noise_events := [0], revert_timer := true }
      (by decide) (by decide)).2 (by decide)).1⟩

/-- Claim C8: once a zone is inactive its all-clear callback neither emits a
notification nor mutates state; and whenever the callback does emit, the zone
was still active and at least delay_minutes had elapsed since the zone's
recorded last strike. -/
theorem all_clear_idempotent (M : AlertLevel) (delay now : Int)
    (stopSet : Bool) (s : AlertState) :
    (zoneActive M s = false →
      send_all_clear M delay now stopSet s = (s, false)) ∧
    ((send_all_clear M delay now stopSet s).2 = true →
      zoneActive M s = true ∧
      ∃ t, zoneLastStrike M s = some t ∧ delay ≤ now - t) := by
  cases M with
  | warning =>
    constructor
    · intro h
      cases stopSet with
      | true => rfl
      | false =>
        simp only [zoneActive] at h
        simp [send_all_clear, h]
    · intro h
      cases stopSet with
      | true => simp [send_all_clear] at h
      | false =>
        cases hw : s.warning_active with
        | false => simp [send_all_clear, hw] at h
        | true =>
          cases hl : s.last_warning_strike with
          | none => simp [send_all_clear, hw, hl] at h
          | some t =>
            refine ⟨by simp [zoneActive, hw], t, by simp [zoneLastStrike, hl], ?_⟩
            by_cases hc : s.warning_timer = true ∧ delay ≤ now - t
            · exact hc.2
            · exfalso
              simp [send_all_clear, hw, hl, hc] at h
  | critical =>
    constructor
    · intro h
      cases stopSet with
      | true => rfl
      | false =>
        simp only [zoneActive] at h
        simp [send_all_clear, h]
    · intro h
      cases stopSet with
      | true => simp [send_all_clear] at h
      | false =>
        cases hcr : s.critical_active with
        | false => simp [send_all_clear, hcr] at h
        | true =>
          cases hl : s.last_critical_strike with
          | none => simp [send_all_clear, hcr, hl] at h
          | some t =>
            refine ⟨by simp [zoneActive, hcr], t, by simp [zoneLastStrike, hl], ?_⟩
            by_cases hc : s.critical_timer = true ∧ delay ≤ now - t
            · exact hc.2
            · exfalso
              simp [send_all_clear, hcr, hl, hc] at h
  | allClear =>
    constructor
    · intro h
      cases stopSet with
      | true => rfl
      | false => simp [send_all_clear]
    · intro h
      cases stopSet with
      | true => simp [send_all_clear] at h
      | false => simp [send_all_clear] at h

/-- Claim C8 witness: the warning all-clear callback firing on the inactive
start state emits nothing and changes nothing. -/
theorem all_clear_idempotent_witness :
    send_all_clear AlertLevel.warning 15 100 false startAlertState =
      (startAlertState, false) :=
  (all_clear_idempotent AlertLevel.warning 15 100 false startAlertState).1
    (by decide)

end Lightning
